import Mathlib

/-!
A verification development for the ICA-AROMA workflow.

The orchestrating function aroma_workflow (src/aroma/aroma.py) is embedded
below as a pure function from an environment (the call arguments together
with the observable file-system and image-header state) to a run result
recording the stages executed, the warnings printed, and the final outcome
(an exception, an early return, or a completed run).

The modules aroma.features, aroma.utils and aroma.plotting are not part of
the sources; where a claim needs them (feature extraction, classification,
denoising) they are modelled from the specification, and each such
definition carries a doc comment starting with "Modelled from the spec:".
-/

namespace Aroma

open Matrix

/-- Model of os.path.join with two components. -/
def opJoin (a b : String) : String := a ++ "/" ++ b

/-- The arguments of aroma_workflow together with the observable state the
workflow consults: isdir and isfile model os.path.isdir / os.path.isfile,
and headerTR models nib.load(f).header.get_zooms()[3] for a path f.
Informational prints and the FSLDIR environment variable (assumed set, as
FSL is a prerequisite of the whole tool) are not modelled. -/
structure Env where
  outDir : String
  inFeat : Option String := none
  inFile0 : Option String := none
  mc0 : Option String := none
  melDir0 : Option String := none
  affmat0 : Option String := none
  warp0 : Option String := none
  denType : String := "nonaggr"
  mask : Option String := none
  TR0 : Option ℚ := none
  overwrite : Bool := false
  generate_plots : Bool := true
  isdir : String → Bool
  isfile : String → Bool
  headerTR : String → ℚ

/-- How the mask is produced (lines 149 to 176 of aroma.py). -/
inductive MaskSource
  | copyMask
  | betMask
  | fslmathsMask
deriving DecidableEq

/-- The externally visible stages the workflow can execute, in order of
execution. -/
inductive Stage
  | rmtreeOut
  | makeOutDir
  | createMask (src : MaskSource)
  | runICA
  | register2MNI
  | featureSpatial
  | featureTimeSeries
  | featureFrequency
  | classificationStep
  | plottingStep
  | denoisingStep
deriving DecidableEq

/-- The warnings the workflow can print. -/
inductive Warning
  | denTypeInvalid
  | overwriteDir
  | trSuspicious
deriving DecidableEq

/-- The final outcome of a run: a raised exception carrying its message, an
early return (existing output directory without -overwrite), or a completed
run carrying the repetition time used for the checks, the effective
denoising type, and the number of cleaned volumes produced. -/
inductive Outcome
  | error (msg : String)
  | earlyReturn
  | finished (usedTR : ℚ) (effDenType : String) (cleaned : ℕ)
deriving DecidableEq

/-- The observable result of one call of aroma_workflow. -/
structure RunResult where
  stages : List Stage
  warnings : List Warning
  outcome : Outcome
deriving DecidableEq

/-- The input files as resolved by lines 42 to 93 of aroma.py. -/
structure Resolved where
  inFile : Option String := none
  mc : Option String := none
  affmat : Option String := none
  warp : Option String := none
  melDir : Option String := none
deriving DecidableEq

/-- One optional-path check of aroma.py: an unspecified path merely prints a
note (not modelled) and the run continues; a specified path that is not a
file raises the given message. -/
def checkSpecified (p : Option String) (isf : String → Bool) (msg : String)
    (k : Except String Resolved) : Except String Resolved :=
  match p with
  | some f => if !(isf f) then .error msg else k
  | none => k

/-- Whether one optional-path check passes without raising: the path is
unspecified (only a note is printed) or it exists. -/
def okOpt (p : Option String) (isf : String → Bool) : Bool :=
  match p with
  | some f => isf f
  | none => true

/-- Lines 42 to 89 of aroma.py: resolve the input files from the Feat
directory or from the individual arguments, checking their existence. -/
def resolveFeat (e : Env) : Except String Resolved :=
  match e.inFeat with
  | some d =>
    if !(e.isdir d) then .error "The specified FEAT directory does not exist."
    else
      let inFile := opJoin d "filtered_func_data.nii.gz"
      let mcf := opJoin (opJoin d "mc") "prefiltered_func_data_mcf.par"
      let affmat := opJoin (opJoin d "reg") "example_func2highres.mat"
      let warp := opJoin (opJoin d "reg") "highres2standard_warp.nii.gz"
      if !(e.isfile inFile) then
        .error "Missing filtered_func_data.nii.gz in Feat directory."
      else if !(e.isfile mcf) then
        .error "Missing mc/prefiltered_func_data_mcf.mat in Feat directory."
      else if !(e.isfile affmat) then
        .error "Missing reg/example_func2highres.mat in Feat directory."
      else if !(e.isfile warp) then
        .error "Missing reg/highres2standard_warp.nii.gz in Feat directory."
      else
        let ica := opJoin d "filtered_func_data.ica"
        .ok { inFile := some inFile, mc := some mcf, affmat := some affmat,
              warp := some warp,
              melDir := if e.isdir ica then some ica else e.melDir0 }
  | none =>
    checkSpecified e.inFile0 e.isfile "The specified input file does not exist."
      (checkSpecified e.mc0 e.isfile "The specified mc file does does not exist."
        (checkSpecified e.affmat0 e.isfile "The specified affmat file does not exist."
          (checkSpecified e.warp0 e.isfile "The specified warp file does not exist."
            (.ok { inFile := e.inFile0, mc := e.mc0, affmat := e.affmat0,
                   warp := e.warp0, melDir := e.melDir0 }))))

/-- Lines 42 to 93 of aroma.py: the input resolution followed by the mask
existence check (lines 92 to 93). -/
def checkFiles (e : Env) : Except String Resolved :=
  match resolveFeat e with
  | .error m => .error m
  | .ok r => checkSpecified e.mask e.isfile "The specified mask does not exist." (.ok r)

/-- Lines 108 to 127 of aroma.py: what happens to the output directory. -/
inductive DirAction
  | stop
  | recreate
  | create
deriving DecidableEq

/-- Decide the output-directory action (lines 108 to 127). -/
def dirAction (e : Env) : DirAction :=
  if e.isdir e.outDir then (if e.overwrite then .recreate else .stop) else .create

/-- The denoising types accepted by line 96 of aroma.py. -/
def validDenTypes : List String := ["nonaggr", "aggr", "both", "no"]

/-- Lines 96 to 101: an unrecognized denoising type falls back to
non-aggressive denoising. -/
def effDen (e : Env) : String :=
  if e.denType ∈ validDenTypes then e.denType else "nonaggr"

/-- The message of the fatal TR exception (lines 142 to 147). -/
def trZeroMsg : String :=
  "TR is zero. ICA-AROMA requires a valid TR and will therefore exit. Please check the header, or define the TR as an additional argument.\n-------------- ICA-AROMA IS CANCELED ------------\n"

/-- Line 131 calls nib.load(inFile); when inFile is None this raises inside
nibabel. The exact nibabel message is not part of the sources. -/
def nibLoadNoneMsg : String := "nib.load: no input file to read a header from"

/-- Lines 129 to 132 of aroma.py: a falsy TR argument (None, or exactly 0)
is replaced by the repetition time read from the input image header. -/
def computeTR (e : Env) (r : Resolved) : Except String ℚ :=
  match e.TR0 with
  | some t =>
    if t = 0 then
      match r.inFile with
      | some f => .ok (e.headerTR f)
      | none => .error nibLoadNoneMsg
    else .ok t
  | none =>
    match r.inFile with
    | some f => .ok (e.headerTR f)
    | none => .error nibLoadNoneMsg

/-- Modelled from the spec: utils.denoising is not in the sources. Per
sections 4.5 and 6 of the spec, the denoiser writes one cleaned volume for
the aggressive or the non-aggressive mode and two for both; the none mode
produces no cleaned volume. -/
def denCount (mode : String) : ℕ :=
  if mode = "both" then 2 else if mode = "no" then 0 else 1

/-- Lines 149 to 176 of aroma.py: how the mask file is produced. -/
def maskSource (e : Env) : MaskSource :=
  match e.mask with
  | some _ => .copyMask
  | none =>
    match e.inFeat with
    | some d => if e.isfile (opJoin d "example_func.nii.gz") then .betMask else .fslmathsMask
    | none => .fslmathsMask

/-- Lines 149 to 215 of aroma.py: everything after the TR checks passed.
No further exception can be raised at this level; the external helper calls
(mask creation, MELODIC, registration, feature extraction, classification,
plotting, denoising) are recorded as stages. -/
def afterTR (e : Env) (dirStages : List Stage) (ws : List Warning) (tr : ℚ) : RunResult :=
  let den := effDen e
  let stages := dirStages ++
    [Stage.createMask (maskSource e), Stage.runICA, Stage.register2MNI,
     Stage.featureSpatial, Stage.featureTimeSeries, Stage.featureFrequency,
     Stage.classificationStep] ++
    (if e.generate_plots then [Stage.plottingStep] else []) ++
    (if den ≠ "no" then [Stage.denoisingStep] else [])
  { stages := stages, warnings := ws,
    outcome := .finished tr den (if den = "no" then 0 else denCount den) }

/-- Lines 129 to 147 of aroma.py: determine the repetition time, warn when
it equals 1, raise when it equals 0, then continue with the main stages. -/
def mainRun (e : Env) (r : Resolved) (dirStages : List Stage) (w1 : List Warning) : RunResult :=
  match computeTR e r with
  | .error m => { stages := dirStages, warnings := w1, outcome := .error m }
  | .ok tr =>
    let w2 := if tr = 1 then w1 ++ [Warning.trSuspicious] else w1
    if tr = 0 then { stages := dirStages, warnings := w2, outcome := .error trZeroMsg }
    else afterTR e dirStages w2 tr

/-- The warning printed by lines 96 to 101 when the denoising type is not
recognized. -/
def denWarn (e : Env) : List Warning :=
  if e.denType ∈ validDenTypes then [] else [Warning.denTypeInvalid]

/-- The embedding of aroma_workflow (src/aroma/aroma.py, lines 11 to 216):
input checks, denoising-type normalization, output-directory gate,
TR determination and checks, then the pipeline stages. -/
def aroma_workflow (e : Env) : RunResult :=
  match checkFiles e with
  | .error m => { stages := [], warnings := [], outcome := .error m }
  | .ok r =>
    match dirAction e with
    | .stop => { stages := [], warnings := denWarn e, outcome := .earlyReturn }
    | .recreate =>
      mainRun e r [Stage.rmtreeOut, Stage.makeOutDir] (denWarn e ++ [Warning.overwriteDir])
    | .create => mainRun e r [Stage.makeOutDir] (denWarn e)

/-! ### Spec-modelled feature extraction, classification and denoising

The modules aroma.features and aroma.utils are not part of the sources;
the definitions below model them from the specification (sections 4.1 to
4.5), over exact rational arithmetic. -/

/-- The rational indicator of a Boolean mask value. -/
def indQ (b : Bool) : ℚ := if b then 1 else 0

/-- Modelled from the spec: features.feature_spatial is not in the sources.
Total absolute mass of a thresholded spatial map inside a Boolean mask,
per section 4.1. -/
def maskedMass {ι : Type} [Fintype ι] (m : ι → ℚ) (msk : ι → Bool) : ℚ :=
  ∑ v, |m v * indQ (msk v)|

/-- Modelled from the spec: edgeFract is the ratio of the absolute mass in
the edge mask over the absolute mass in the brain mask; when the
denominator is zero the fraction is reported as 0 (section 4.1). -/
def edgeFract {ι : Type} [Fintype ι] (m : ι → ℚ) (edge brain : ι → Bool) : ℚ :=
  if maskedMass m brain = 0 then 0 else maskedMass m edge / maskedMass m brain

/-- Modelled from the spec: csfFract, the CSF counterpart of edgeFract
(section 4.1). -/
def csfFract {ι : Type} [Fintype ι] (m : ι → ℚ) (csf brain : ι → Bool) : ℚ :=
  if maskedMass m brain = 0 then 0 else maskedMass m csf / maskedMass m brain

/-- Modelled from the spec: the frequency of bin i among n bins spanning
(0 Hz, Nyquist], with Nyquist = 1 / (2 TR) (section 4.3). -/
def binFreq (TR : ℚ) (n : ℕ) (i : Fin n) : ℚ :=
  (((i : ℕ) : ℚ) + 1) / (2 * TR * (n : ℚ))

/-- Modelled from the spec: features.feature_frequency is not in the
sources. HFC is the fraction of total squared-magnitude power lying in the
bins above the cutoff frequency; an all-zero spectrum reports 0
(section 4.3). -/
def HFC {n : ℕ} (c : Fin n → ℚ) (TR cutoff : ℚ) : ℚ :=
  if (∑ i, c i ^ 2) = 0 then 0
  else (∑ i ∈ Finset.univ.filter (fun i => cutoff < binFreq TR n i), c i ^ 2) /
    (∑ i, c i ^ 2)

/-- Sum of squares of a vector, as a dot product with itself. -/
def SS {m : Type} [Fintype m] (y : m → ℚ) : ℚ := y ⬝ᵥ y

/-- A computable inverse for square rational matrices: the adjugate scaled
by the inverse of the determinant. It equals the Mathlib inverse, and is
the zero matrix when the determinant is zero, which models the
pseudo-inverse fallback of the spec (section 4.2) in the rank-deficient
case. -/
def qInv {p : Type} [Fintype p] [DecidableEq p] (A : Matrix p p ℚ) : Matrix p p ℚ :=
  A.det⁻¹ • A.adjugate

/-- Modelled from the spec: the least-squares coefficients of the normal
equations, via the (pseudo-)inverse of the Gram matrix. -/
def lstsqBeta {m p : Type} [Fintype m] [Fintype p] [DecidableEq p]
    (X : Matrix m p ℚ) (y : m → ℚ) : p → ℚ :=
  qInv (Xᵀ * X) *ᵥ (Xᵀ *ᵥ y)

/-- Modelled from the spec: the coefficient of determination of the
least-squares fit of y against the columns of X; a zero-variance target
reports 0 (section 4.2). -/
def alignR2 {m p : Type} [Fintype m] [Fintype p] [DecidableEq p]
    (X : Matrix m p ℚ) (y : m → ℚ) : ℚ :=
  if SS y = 0 then 0 else 1 - SS (y - X *ᵥ lstsqBeta X y) / SS y

/-- Remove the mean of a time course (section 4.2 and 4.5). -/
def demean {T : ℕ} (y : Fin T → ℚ) : Fin T → ℚ :=
  fun t => y t - (∑ s, y s) / (T : ℚ)

/-- Modelled from the spec: the first-order temporal derivative of the six
motion parameters, with a zero first row (section 4.2). -/
def rpDeriv {T : ℕ} (rp : Fin T → Fin 6 → ℚ) : Fin T → Fin 6 → ℚ :=
  fun t j =>
    if (t : ℕ) = 0 then 0
    else rp t j - rp ⟨(t : ℕ) - 1, Nat.lt_of_le_of_lt (Nat.sub_le _ _) t.isLt⟩ j

/-- Modelled from the spec: the 12-column temporal design matrix, the six
motion parameters and their first-order derivatives, each demeaned
(section 4.2). -/
def designMat {T : ℕ} (rp : Fin T → Fin 6 → ℚ) : Matrix (Fin T) (Fin 12) ℚ :=
  fun t j =>
    if h : (j : ℕ) < 6 then demean (fun s => rp s ⟨(j : ℕ), h⟩) t
    else demean (fun s => rpDeriv rp s ⟨(j : ℕ) - 6, by have := j.isLt; omega⟩) t

/-- Drop the first row of a time course (edge rows dropped when shifting,
section 4.2). -/
def dropFirst {T : ℕ} (y : Fin T → ℚ) : Fin (T - 1) → ℚ :=
  fun t => y ⟨(t : ℕ) + 1, by have := t.isLt; omega⟩

/-- Keep all but the last row of a time course. -/
def dropLast {T : ℕ} (y : Fin T → ℚ) : Fin (T - 1) → ℚ :=
  fun t => y ⟨(t : ℕ), by have := t.isLt; omega⟩

/-- Drop the first row of a design matrix. -/
def dropFirstM {T : ℕ} {c : Type} (X : Matrix (Fin T) c ℚ) : Matrix (Fin (T - 1)) c ℚ :=
  fun t j => X ⟨(t : ℕ) + 1, by have := t.isLt; omega⟩ j

/-- Keep all but the last row of a design matrix. -/
def dropLastM {T : ℕ} {c : Type} (X : Matrix (Fin T) c ℚ) : Matrix (Fin (T - 1)) c ℚ :=
  fun t j => X ⟨(t : ℕ), by have := t.isLt; omega⟩ j

/-- Modelled from the spec: features.feature_time_series is not in the
sources. The demeaned component time course is fit against the design
matrix at the three temporal alignments (-1, 0, +1, edge rows dropped);
each alignment yields the square root of its coefficient of determination
and the feature is the maximum of the three magnitudes (section 4.2). -/
noncomputable def maxRPcorr {T : ℕ} (y : Fin T → ℚ) (rp : Fin T → Fin 6 → ℚ) : ℝ :=
  max (max (Real.sqrt ((alignR2 (designMat rp) (demean y) : ℚ) : ℝ))
      (Real.sqrt ((alignR2 (dropLastM (designMat rp)) (dropFirst (demean y)) : ℚ) : ℝ)))
    (Real.sqrt ((alignR2 (dropFirstM (designMat rp)) (dropLast (demean y)) : ℚ) : ℝ))

/-- The four per-component feature scalars (spec section 3). -/
structure FeatureSet where
  edgeFract : ℚ
  csfFract : ℚ
  maxRPcorr : ℚ
  HFC : ℚ
deriving DecidableEq

/-- The fixed, pre-calibrated classifier constants, as an explicit
configuration structure (spec sections 4.4 and 9). -/
structure ClassifierConfig where
  rpThreshold : ℚ
  coefRP : ℚ
  coefEdge : ℚ
  intercept : ℚ
deriving DecidableEq

/-- Modelled from the spec: utils.classification is not in the sources.
The linear discriminant over (maxRPcorr, edgeFract) (section 4.4). -/
def discriminantScore (cfg : ClassifierConfig) (f : FeatureSet) : ℚ :=
  cfg.coefRP * f.maxRPcorr + cfg.coefEdge * f.edgeFract + cfg.intercept

/-- Modelled from the spec: the per-component decision rule: a high
absolute maxRPcorr alone labels the component as motion; otherwise the
sign of the discriminant decides (section 4.4). -/
def classify (cfg : ClassifierConfig) (f : FeatureSet) : Bool :=
  (cfg.rpThreshold < |f.maxRPcorr|) || (0 < discriminantScore cfg f)

/-- Modelled from the spec: the classification table, one row per
component with its identifier, discriminant score and label (section 6). -/
def classificationTable (cfg : ClassifierConfig) (xs : List (ℕ × FeatureSet)) :
    List (ℕ × ℚ × Bool) :=
  xs.map (fun p => (p.1, discriminantScore cfg p.2, classify cfg p.2))

/-- Demean every column of a regressor matrix (section 4.5). -/
def demeanCols {T : ℕ} {c : Type} (X : Matrix (Fin T) c ℚ) : Matrix (Fin T) c ℚ :=
  fun t j => demean (fun s => X s j) t

/-- The sub-matrix of the mixing matrix keeping only the noise-labeled
columns. -/
def noiseCols {T K : ℕ} (mix : Matrix (Fin T) (Fin K) ℚ) (noise : Finset (Fin K)) :
    Matrix (Fin T) {i // i ∈ noise} ℚ :=
  fun t i => mix t i.val

/-- Modelled from the spec: utils.denoising is not in the sources. The
aggressive strategy regresses only the noise-labeled (demeaned) columns
against the demeaned voxel time course and subtracts the fitted
contribution from the original course, restoring the mean (section 4.5). -/
def aggrClean {T K : ℕ} (mix : Matrix (Fin T) (Fin K) ℚ) (noise : Finset (Fin K))
    (y : Fin T → ℚ) : Fin T → ℚ :=
  let Xd := demeanCols (noiseCols mix noise)
  let b := lstsqBeta Xd (demean y)
  fun t => y t - (Xd *ᵥ b) t

/-- Modelled from the spec: the non-aggressive strategy fits all K
(demeaned) columns jointly and subtracts only the portion of the fit
attributable to the noise-labeled columns (section 4.5). -/
def nonaggrClean {T K : ℕ} (mix : Matrix (Fin T) (Fin K) ℚ) (noise : Finset (Fin K))
    (y : Fin T → ℚ) : Fin T → ℚ :=
  let Xd := demeanCols mix
  let b := lstsqBeta Xd (demean y)
  fun t => y t - ∑ i ∈ noise, b i * Xd t i

/-- Modelled from the spec: the per-voxel denoiser output, a list of
cleaned time courses matching the requested mode (sections 4.5 and 6). -/
def denoiser (mode : String) {T K : ℕ} (mix : Matrix (Fin T) (Fin K) ℚ)
    (noise : Finset (Fin K)) (y : Fin T → ℚ) : List (Fin T → ℚ) :=
  if mode = "aggr" then [aggrClean mix noise y]
  else if mode = "nonaggr" then [nonaggrClean mix noise y]
  else if mode = "both" then [aggrClean mix noise y, nonaggrClean mix noise y]
  else []

/-! ### Concrete environments for the counterexamples and witnesses -/

/-- A concrete environment: the two input files exist, the output
directory does not, the TR argument is 2 and the header also reads 2. -/
def envBase : Env :=
  { outDir := "out"
    inFile0 := some "in.nii"
    mc0 := some "mc.par"
    denType := "nonaggr"
    TR0 := some 2
    overwrite := false
    generate_plots := false
    isdir := fun _ => false
    isfile := fun s => s == "in.nii" || s == "mc.par"
    headerTR := fun _ => 2 }

/-- TR argument exactly 0 (falsy) while the header reads 2. -/
def envC1cx : Env := { envBase with TR0 := some 0 }

/-- No TR argument and a header that reads 0. -/
def envC1w : Env := { envBase with TR0 := none, headerTR := fun _ => 0 }

/-- No input file and no mc file specified at all. -/
def envC2cx : Env := { envBase with inFile0 := none, mc0 := none }

/-- No TR argument and a header that reads 0 (for the TR clause). -/
def envC2w : Env := { envBase with TR0 := none, headerTR := fun _ => 0 }

/-- A specified input file that does not exist. -/
def envC2w2 : Env := { envBase with inFile0 := some "nope.nii" }

/-- A specified Feat directory that does not exist. -/
def envC2featDir : Env := { envBase with inFeat := some "feat" }

/-- An existing Feat directory with no files inside. -/
def envC2feat1 : Env :=
  { envBase with inFeat := some "feat", isdir := fun s => s == "feat" }

/-- An existing Feat directory containing only the filtered data. -/
def envC2feat2 : Env :=
  { envBase with
    inFeat := some "feat"
    isdir := fun s => s == "feat"
    isfile := fun s => s == "feat/filtered_func_data.nii.gz" }

/-- An existing Feat directory containing the filtered data and the motion
parameters. -/
def envC2feat3 : Env :=
  { envBase with
    inFeat := some "feat"
    isdir := fun s => s == "feat"
    isfile := fun s =>
      s == "feat/filtered_func_data.nii.gz" ||
      s == "feat/mc/prefiltered_func_data_mcf.par" }

/-- An existing Feat directory missing only the warp file. -/
def envC2feat4 : Env :=
  { envBase with
    inFeat := some "feat"
    isdir := fun s => s == "feat"
    isfile := fun s =>
      s == "feat/filtered_func_data.nii.gz" ||
      s == "feat/mc/prefiltered_func_data_mcf.par" ||
      s == "feat/reg/example_func2highres.mat" }

/-- A specified mc file that does not exist. -/
def envC2mc : Env := { envBase with mc0 := some "nope.par" }

/-- A specified affmat file that does not exist. -/
def envC2aff : Env := { envBase with affmat0 := some "nope.mat" }

/-- A specified warp file that does not exist. -/
def envC2warp : Env := { envBase with warp0 := some "nope.nii" }

/-- A specified mask file that does not exist. -/
def envC2mask : Env := { envBase with mask := some "nope.nii" }

/-- A run with the none denoising mode. -/
def envC3w : Env := { envBase with denType := "no" }

/-- TR argument 1 but the output directory already exists without
-overwrite. -/
def envC4cx : Env := { envBase with TR0 := some 1, isdir := fun s => s == "out" }

/-- TR argument 1 on an otherwise clean run. -/
def envC4w : Env := { envBase with TR0 := some 1 }

/-- TR argument exactly 0 (falsy) while the header reads 3. -/
def envC8w : Env := { envBase with TR0 := some 0, headerTR := fun _ => 3 }

/-- An invalid denoising type together with an input file that does not
exist. -/
def envC9cx : Env := { envBase with denType := "foo", inFile0 := some "nope.nii" }

/-- An invalid denoising type on an otherwise clean run. -/
def envC9w : Env := { envBase with denType := "foo" }

/-- A Feat directory that does not exist while the output directory
already exists without -overwrite. -/
def envC10cx : Env :=
  { envBase with inFeat := some "feat", isdir := fun s => s == "out" }

/-- A clean run whose output directory already exists. -/
def envC10w : Env := { envBase with isdir := fun s => s == "out" }

/-- The same with -overwrite. -/
def envC10w2 : Env :=
  { envBase with isdir := fun s => s == "out", overwrite := true }

/-- A feature set with a dominant motion correlation. -/
def featA : FeatureSet := { edgeFract := 0, csfFract := 0, maxRPcorr := 1, HFC := 0 }

/-- A feature set with a dominant edge fraction. -/
def featB : FeatureSet := { edgeFract := 1, csfFract := 0, maxRPcorr := 0, HFC := 0 }

/-- A concrete classifier configuration. -/
def cfg0 : ClassifierConfig :=
  { rpThreshold := 1 / 2, coefRP := 1, coefEdge := 1, intercept := -1 / 4 }

/-! ### Equation lemmas for the workflow -/

theorem mainRun_eq_error {e : Env} {r : Resolved} {m : String} (ds : List Stage)
    (ws : List Warning) (hct : computeTR e r = .error m) :
    mainRun e r ds ws = { stages := ds, warnings := ws, outcome := .error m } := by
  simp [mainRun, hct]

theorem mainRun_eq_trzero {e : Env} {r : Resolved} (ds : List Stage)
    (ws : List Warning) (hct : computeTR e r = .ok 0) :
    mainRun e r ds ws = { stages := ds, warnings := ws, outcome := .error trZeroMsg } := by
  simp [mainRun, hct]

theorem mainRun_eq_ok {e : Env} {r : Resolved} {tr : ℚ} (ds : List Stage)
    (ws : List Warning) (hct : computeTR e r = .ok tr) (h0 : tr ≠ 0) :
    mainRun e r ds ws =
      afterTR e ds (if tr = 1 then ws ++ [Warning.trSuspicious] else ws) tr := by
  simp [mainRun, hct, h0]

theorem workflow_eq_err {e : Env} {m : String} (h : checkFiles e = .error m) :
    aroma_workflow e = { stages := [], warnings := [], outcome := .error m } := by
  simp [aroma_workflow, h]

theorem workflow_eq_stop {e : Env} {r : Resolved} (h : checkFiles e = .ok r)
    (hd : dirAction e = .stop) :
    aroma_workflow e = { stages := [], warnings := denWarn e, outcome := .earlyReturn } := by
  simp [aroma_workflow, h, hd]

theorem workflow_eq_recreate {e : Env} {r : Resolved} (h : checkFiles e = .ok r)
    (hd : dirAction e = .recreate) :
    aroma_workflow e =
      mainRun e r [Stage.rmtreeOut, Stage.makeOutDir] (denWarn e ++ [Warning.overwriteDir]) := by
  simp [aroma_workflow, h, hd]

theorem workflow_eq_create {e : Env} {r : Resolved} (h : checkFiles e = .ok r)
    (hd : dirAction e = .create) :
    aroma_workflow e = mainRun e r [Stage.makeOutDir] (denWarn e) := by
  simp [aroma_workflow, h, hd]

/-- Every run has one of four shapes: an exception from the input checks
(no stage executed), an early return (no stage executed), an exception
from the TR determination or check (only directory stages executed), or a
completed main run. -/
theorem workflow_shape (e : Env) :
    (∃ m, aroma_workflow e = { stages := [], warnings := [], outcome := .error m }) ∨
    (aroma_workflow e = { stages := [], warnings := denWarn e, outcome := .earlyReturn }) ∨
    (∃ ds ws m, (ds = [Stage.rmtreeOut, Stage.makeOutDir] ∨ ds = [Stage.makeOutDir]) ∧
      aroma_workflow e = { stages := ds, warnings := ws, outcome := .error m }) ∨
    (∃ ds ws tr, (ds = [Stage.rmtreeOut, Stage.makeOutDir] ∨ ds = [Stage.makeOutDir]) ∧
      aroma_workflow e = afterTR e ds ws tr) := by
  cases hcf : checkFiles e with
  | error m => exact Or.inl ⟨m, workflow_eq_err hcf⟩
  | ok r =>
    cases hda : dirAction e with
    | stop => exact Or.inr (Or.inl (workflow_eq_stop hcf hda))
    | recreate =>
      rw [workflow_eq_recreate hcf hda]
      cases hct : computeTR e r with
      | error m =>
        exact Or.inr (Or.inr (Or.inl ⟨_, _, m, Or.inl rfl, mainRun_eq_error _ _ hct⟩))
      | ok tr =>
        by_cases h0 : tr = 0
        · subst h0
          exact Or.inr (Or.inr (Or.inl ⟨_, _, _, Or.inl rfl, mainRun_eq_trzero _ _ hct⟩))
        · exact Or.inr (Or.inr (Or.inr ⟨_, _, tr, Or.inl rfl, mainRun_eq_ok _ _ hct h0⟩))
    | create =>
      rw [workflow_eq_create hcf hda]
      cases hct : computeTR e r with
      | error m =>
        exact Or.inr (Or.inr (Or.inl ⟨_, _, m, Or.inr rfl, mainRun_eq_error _ _ hct⟩))
      | ok tr =>
        by_cases h0 : tr = 0
        · subst h0
          exact Or.inr (Or.inr (Or.inl ⟨_, _, _, Or.inr rfl, mainRun_eq_trzero _ _ hct⟩))
        · exact Or.inr (Or.inr (Or.inr ⟨_, _, tr, Or.inr rfl, mainRun_eq_ok _ _ hct h0⟩))

/-- The denoising stage never appears among the stages of a run that ends
in an exception. -/
theorem no_denoising_after_error (e : Env) (m : String)
    (h : (aroma_workflow e).outcome = .error m) :
    Stage.denoisingStep ∉ (aroma_workflow e).stages := by
  rcases workflow_shape e with ⟨m2, hw⟩ | hw | ⟨ds, ws, m2, hds, hw⟩ | ⟨ds, ws, tr, hds, hw⟩
  · rw [hw]; simp
  · rw [hw] at h; simp at h
  · rw [hw]; rcases hds with h1 | h1 <;> subst h1 <;> simp
  · rw [hw] at h; simp [afterTR] at h

/-! ### Claim C1 -/

/-- C1, counterexample to the claim as stated: a call whose TR argument is
exactly 0 does not raise the fatal TR error; the argument is falsy, so it
is replaced by the header value (here 2) and the run completes, executing
the spatial feature extraction. -/
theorem C1_counterexample :
    envC1cx.TR0 = some 0 ∧
    (aroma_workflow envC1cx).outcome = Outcome.finished 2 "nonaggr" 1 ∧
    Stage.featureSpatial ∈ (aroma_workflow envC1cx).stages := by
  refine ⟨rfl, ?_, ?_⟩ <;> decide

/-- C1, amended: whenever a run reaches the TR check (the input checks
passed and the output-directory gate did not stop the run) and the
effective repetition time there is zero, the workflow raises the fatal TR
exception and no feature extraction (spatial, temporal, or frequency)
stage is executed. -/
theorem C1_tr_zero_fatal_before_features (e : Env) (r : Resolved)
    (h1 : checkFiles e = .ok r) (h2 : dirAction e ≠ .stop)
    (h3 : computeTR e r = .ok 0) :
    (aroma_workflow e).outcome = .error trZeroMsg ∧
    Stage.featureSpatial ∉ (aroma_workflow e).stages ∧
    Stage.featureTimeSeries ∉ (aroma_workflow e).stages ∧
    Stage.featureFrequency ∉ (aroma_workflow e).stages := by
  cases hda : dirAction e with
  | stop => exact absurd hda h2
  | recreate =>
    rw [workflow_eq_recreate h1 hda, mainRun_eq_trzero _ _ h3]
    refine ⟨rfl, ?_, ?_, ?_⟩ <;> simp
  | create =>
    rw [workflow_eq_create h1 hda, mainRun_eq_trzero _ _ h3]
    refine ⟨rfl, ?_, ?_, ?_⟩ <;> simp

/-- C1, witness: a concrete run (no TR argument, header reads 0) where the
amended claim applies. -/
theorem C1_witness :
    (aroma_workflow envC1w).outcome = .error trZeroMsg ∧
    Stage.featureSpatial ∉ (aroma_workflow envC1w).stages ∧
    Stage.featureTimeSeries ∉ (aroma_workflow envC1w).stages ∧
    Stage.featureFrequency ∉ (aroma_workflow envC1w).stages :=
  C1_tr_zero_fatal_before_features envC1w
    { inFile := some "in.nii", mc := some "mc.par" }
    rfl (by decide) rfl

/-! ### Claim C4 -/

/-- C4, counterexample to the claim as stated: a call whose TR argument is
1 but whose output directory already exists without the overwrite flag
returns early: no warning is emitted and the run does not continue to
completion. -/
theorem C4_counterexample :
    envC4cx.TR0 = some 1 ∧
    aroma_workflow envC4cx =
      { stages := [], warnings := [], outcome := .earlyReturn } := by
  refine ⟨rfl, ?_⟩; decide

/-- C4, amended: whenever a run reaches the TR check and the effective
repetition time there is 1, the workflow emits the TR warning and
continues to completion. -/
theorem C4_tr_one_warns_and_continues (e : Env) (r : Resolved)
    (h1 : checkFiles e = .ok r) (h2 : dirAction e ≠ .stop)
    (h3 : computeTR e r = .ok 1) :
    Warning.trSuspicious ∈ (aroma_workflow e).warnings ∧
    (aroma_workflow e).outcome =
      .finished 1 (effDen e) (if effDen e = "no" then 0 else denCount (effDen e)) := by
  cases hda : dirAction e with
  | stop => exact absurd hda h2
  | recreate =>
    rw [workflow_eq_recreate h1 hda, mainRun_eq_ok _ _ h3 one_ne_zero]
    constructor
    · simp [afterTR]
    · simp [afterTR]
  | create =>
    rw [workflow_eq_create h1 hda, mainRun_eq_ok _ _ h3 one_ne_zero]
    constructor
    · simp [afterTR]
    · simp [afterTR]

/-- C4, witness: a concrete clean run with TR argument 1 warns and
finishes. -/
theorem C4_witness :
    Warning.trSuspicious ∈ (aroma_workflow envC4w).warnings ∧
    (aroma_workflow envC4w).outcome =
      .finished 1 (effDen envC4w) (if effDen envC4w = "no" then 0 else denCount (effDen envC4w)) :=
  C4_tr_one_warns_and_continues envC4w
    { inFile := some "in.nii", mc := some "mc.par" }
    rfl (by decide) rfl

/-! ### Claim C10 -/

/-- A stage listed among the directory stages is among the stages of the
main run. -/
theorem mem_mainRun_stages (e : Env) (r : Resolved) (ds : List Stage)
    (ws : List Warning) (s : Stage) (h : s ∈ ds) : s ∈ (mainRun e r ds ws).stages := by
  cases hct : computeTR e r with
  | error m => rw [mainRun_eq_error _ _ hct]; exact h
  | ok tr =>
    by_cases h0 : tr = 0
    · subst h0; rw [mainRun_eq_trzero _ _ hct]; exact h
    · rw [mainRun_eq_ok _ _ hct h0]
      simp [afterTR, List.mem_append, h]

/-- C10, counterexample to the claim as stated: a call whose output
directory already exists and whose overwrite flag is false does not always
return early without an error; with a nonexistent Feat directory the input
checks raise first. -/
theorem C10_counterexample :
    envC10cx.isdir envC10cx.outDir = true ∧
    envC10cx.overwrite = false ∧
    (aroma_workflow envC10cx).outcome =
      .error "The specified FEAT directory does not exist." := by
  refine ⟨rfl, rfl, ?_⟩; decide

/-- C10, amended: for every call that passes the input checks, when the
output directory exists and the overwrite flag is false the workflow
returns early with no stage executed (in particular the directory is not
removed); when the overwrite flag is true the existing directory is
removed and recreated. -/
theorem C10_existing_outdir_gate (e : Env) (r : Resolved)
    (h1 : checkFiles e = .ok r) :
    (e.isdir e.outDir = true → e.overwrite = false →
      aroma_workflow e =
        { stages := [], warnings := denWarn e, outcome := .earlyReturn }) ∧
    (e.isdir e.outDir = true → e.overwrite = true →
      Stage.rmtreeOut ∈ (aroma_workflow e).stages ∧
      Stage.makeOutDir ∈ (aroma_workflow e).stages) := by
  constructor
  · intro hd ho
    exact workflow_eq_stop h1 (by simp [dirAction, hd, ho])
  · intro hd ho
    rw [workflow_eq_recreate h1 (by simp [dirAction, hd, ho])]
    exact ⟨mem_mainRun_stages _ _ _ _ _ (by simp), mem_mainRun_stages _ _ _ _ _ (by simp)⟩

/-- C10, witness: a concrete existing output directory stops the run early
without the overwrite flag, and is removed and recreated with it. -/
theorem C10_witness :
    aroma_workflow envC10w =
      { stages := [], warnings := denWarn envC10w, outcome := .earlyReturn } ∧
    Stage.rmtreeOut ∈ (aroma_workflow envC10w2).stages ∧
    Stage.makeOutDir ∈ (aroma_workflow envC10w2).stages := by
  refine ⟨?_, ?_⟩
  · exact (C10_existing_outdir_gate envC10w
      { inFile := some "in.nii", mc := some "mc.par" } rfl).1 rfl rfl
  · exact (C10_existing_outdir_gate envC10w2
      { inFile := some "in.nii", mc := some "mc.par" } rfl).2 rfl rfl

/-! ### Claim C9 -/

/-- C9, counterexample to the claim as stated: a call with an unrecognized
denoising type can still fail: here the specified input file does not
exist, so the run raises before the denoising-type check and no warning is
printed. -/
theorem C9_counterexample :
    envC9cx.denType = "foo" ∧
    aroma_workflow envC9cx =
      { stages := [], warnings := [],
        outcome := .error "The specified input file does not exist." } := by
  refine ⟨rfl, ?_⟩; decide

set_option linter.unusedTactic false in
set_option linter.unreachableTactic false in
/-- C9, amended: for every call that passes the input checks, an
unrecognized denoising type never itself causes a failure: the workflow
prints the warning and behaves exactly as the same call with the
non-aggressive type, which is the effective mode. -/
theorem C9_invalid_dentype_falls_back (e : Env) (r : Resolved)
    (h1 : checkFiles e = .ok r) (h2 : e.denType ∉ validDenTypes) :
    effDen e = "nonaggr" ∧
    aroma_workflow e =
      { aroma_workflow { e with denType := "nonaggr" } with
        warnings :=
          Warning.denTypeInvalid ::
            (aroma_workflow { e with denType := "nonaggr" }).warnings } := by
  have heff : effDen e = "nonaggr" := by simp [effDen, h2]
  refine ⟨heff, ?_⟩
  have heff' : effDen { e with denType := "nonaggr" } = "nonaggr" := by
    simp [effDen, validDenTypes]
  have hwar : denWarn e = [Warning.denTypeInvalid] := by simp [denWarn, h2]
  have hwar' : denWarn { e with denType := "nonaggr" } = [] := by
    simp [denWarn, validDenTypes]
  have h1' : checkFiles { e with denType := "nonaggr" } = .ok r := h1
  have hda' : dirAction { e with denType := "nonaggr" } = dirAction e := rfl
  cases hda : dirAction e with
  | stop =>
    rw [workflow_eq_stop h1 hda, workflow_eq_stop h1' (hda'.trans hda), hwar, hwar']
    all_goals exact rfl
  | recreate =>
    rw [workflow_eq_recreate h1 hda, workflow_eq_recreate h1' (hda'.trans hda), hwar, hwar']
    cases hct : computeTR e r with
    | error m =>
      have hct2 : computeTR { e with denType := "nonaggr" } r = .error m := hct
      rw [mainRun_eq_error _ _ hct, mainRun_eq_error _ _ hct2]
      all_goals exact rfl
    | ok tr =>
      have hct2 : computeTR { e with denType := "nonaggr" } r = .ok tr := hct
      by_cases h0 : tr = 0
      · subst h0
        rw [mainRun_eq_trzero _ _ hct, mainRun_eq_trzero _ _ hct2]
        all_goals exact rfl
      · rw [mainRun_eq_ok _ _ hct h0, mainRun_eq_ok _ _ hct2 h0]
        by_cases h1tr : tr = 1 <;>
          simp [afterTR, h1tr, heff, heff', maskSource]
  | create =>
    rw [workflow_eq_create h1 hda, workflow_eq_create h1' (hda'.trans hda), hwar, hwar']
    cases hct : computeTR e r with
    | error m =>
      have hct2 : computeTR { e with denType := "nonaggr" } r = .error m := hct
      rw [mainRun_eq_error _ _ hct, mainRun_eq_error _ _ hct2]
      all_goals exact rfl
    | ok tr =>
      have hct2 : computeTR { e with denType := "nonaggr" } r = .ok tr := hct
      by_cases h0 : tr = 0
      · subst h0
        rw [mainRun_eq_trzero _ _ hct, mainRun_eq_trzero _ _ hct2]
        all_goals exact rfl
      · rw [mainRun_eq_ok _ _ hct h0, mainRun_eq_ok _ _ hct2 h0]
        by_cases h1tr : tr = 1 <;>
          simp [afterTR, h1tr, heff, heff', maskSource]

/-- C9, witness: a concrete clean run with denoising type "foo" warns and
behaves as the non-aggressive run. -/
theorem C9_witness :
    effDen envC9w = "nonaggr" ∧
    aroma_workflow envC9w =
      { aroma_workflow { envC9w with denType := "nonaggr" } with
        warnings :=
          Warning.denTypeInvalid ::
            (aroma_workflow { envC9w with denType := "nonaggr" }).warnings } :=
  C9_invalid_dentype_falls_back envC9w
    { inFile := some "in.nii", mc := some "mc.par" }
    rfl (by decide)

/-! ### Claim C8 -/

/-- C8, the claim: a falsy TR argument (None or exactly 0) is replaced by
the repetition time read from the input image header before the zero/one
checks; the run is identical to one where that header value was passed as
the TR argument. -/
theorem C8_falsy_tr_uses_header (e : Env) (r : Resolved) (f : String)
    (h1 : checkFiles e = .ok r) (h2 : r.inFile = some f)
    (h3 : e.TR0 = none ∨ e.TR0 = some 0) :
    computeTR e r = .ok (e.headerTR f) ∧
    aroma_workflow e = aroma_workflow { e with TR0 := some (e.headerTR f) } := by
  have hct : computeTR e r = .ok (e.headerTR f) := by
    rcases h3 with h3 | h3 <;> simp [computeTR, h3, h2]
  refine ⟨hct, ?_⟩
  have hct' : computeTR { e with TR0 := some (e.headerTR f) } r = .ok (e.headerTR f) := by
    by_cases h0 : e.headerTR f = 0 <;> simp [computeTR, h0, h2]
  have h1' : checkFiles { e with TR0 := some (e.headerTR f) } = .ok r := h1
  cases hda : dirAction e with
  | stop =>
    rw [workflow_eq_stop h1 hda, workflow_eq_stop h1' hda]
    all_goals exact rfl
  | recreate =>
    rw [workflow_eq_recreate h1 hda, workflow_eq_recreate h1' hda]
    by_cases h0 : e.headerTR f = 0
    · rw [mainRun_eq_trzero _ _ (h0 ▸ hct), mainRun_eq_trzero _ _ (h0 ▸ hct')]
      all_goals exact rfl
    · rw [mainRun_eq_ok _ _ hct h0, mainRun_eq_ok _ _ hct' h0]
      all_goals exact rfl
  | create =>
    rw [workflow_eq_create h1 hda, workflow_eq_create h1' hda]
    by_cases h0 : e.headerTR f = 0
    · rw [mainRun_eq_trzero _ _ (h0 ▸ hct), mainRun_eq_trzero _ _ (h0 ▸ hct')]
      all_goals exact rfl
    · rw [mainRun_eq_ok _ _ hct h0, mainRun_eq_ok _ _ hct' h0]
      all_goals exact rfl

/-- C8, witness: a concrete call with TR argument 0 and header value 3
uses 3 for the checks and equals the run called with TR argument 3. -/
theorem C8_witness :
    computeTR envC8w { inFile := some "in.nii", mc := some "mc.par" } =
      .ok (envC8w.headerTR "in.nii") ∧
    aroma_workflow envC8w =
      aroma_workflow { envC8w with TR0 := some (envC8w.headerTR "in.nii") } :=
  C8_falsy_tr_uses_header envC8w
    { inFile := some "in.nii", mc := some "mc.par" } "in.nii"
    rfl rfl (Or.inr rfl)

/-! ### Claim C2 -/

/-- C2, counterexample to the claim as stated: an unspecified (None) input
file is a missing required input, yet the run does not stop: it prints a
note and continues all the way through denoising. -/
theorem C2_counterexample :
    envC2cx.inFile0 = none ∧ envC2cx.mc0 = none ∧
    (aroma_workflow envC2cx).outcome = .finished 2 "nonaggr" 1 ∧
    Stage.denoisingStep ∈ (aroma_workflow envC2cx).stages := by
  refine ⟨rfl, rfl, ?_, ?_⟩ <;> decide

/-- An optional-path check that passes reduces to its continuation. -/
theorem checkSpecified_ok (p : Option String) (isf : String → Bool) (msg : String)
    (k : Except String Resolved) (h : okOpt p isf = true) :
    checkSpecified p isf msg k = k := by
  cases p with
  | none => rfl
  | some f =>
    have hf : isf f = true := by simpa [okOpt] using h
    simp [checkSpecified, hf]

/-- C2, amended: whenever a fatal precondition fails (a nonexistent
specified Feat directory, a missing file of a specified Feat directory, a
specified input/mc/affmat/warp/mask path that does not exist, or a zero
effective repetition time at the TR check), the run stops with an
exception whose message names the failed precondition, and the denoising
step is never executed after any such failure; unspecified (None) input
and mc paths only print a note and the input checks let the run
continue. -/
theorem C2_fatal_preconditions_stop_run :
    (∀ (e : Env) (m : String), (aroma_workflow e).outcome = .error m →
      Stage.denoisingStep ∉ (aroma_workflow e).stages) ∧
    (∀ (e : Env) (d : String), e.inFeat = some d → e.isdir d = false →
      (aroma_workflow e).outcome =
        .error "The specified FEAT directory does not exist.") ∧
    (∀ (e : Env) (d : String), e.inFeat = some d → e.isdir d = true →
      e.isfile (opJoin d "filtered_func_data.nii.gz") = false →
      (aroma_workflow e).outcome =
        .error "Missing filtered_func_data.nii.gz in Feat directory.") ∧
    (∀ (e : Env) (d : String), e.inFeat = some d → e.isdir d = true →
      e.isfile (opJoin d "filtered_func_data.nii.gz") = true →
      e.isfile (opJoin (opJoin d "mc") "prefiltered_func_data_mcf.par") = false →
      (aroma_workflow e).outcome =
        .error "Missing mc/prefiltered_func_data_mcf.mat in Feat directory.") ∧
    (∀ (e : Env) (d : String), e.inFeat = some d → e.isdir d = true →
      e.isfile (opJoin d "filtered_func_data.nii.gz") = true →
      e.isfile (opJoin (opJoin d "mc") "prefiltered_func_data_mcf.par") = true →
      e.isfile (opJoin (opJoin d "reg") "example_func2highres.mat") = false →
      (aroma_workflow e).outcome =
        .error "Missing reg/example_func2highres.mat in Feat directory.") ∧
    (∀ (e : Env) (d : String), e.inFeat = some d → e.isdir d = true →
      e.isfile (opJoin d "filtered_func_data.nii.gz") = true →
      e.isfile (opJoin (opJoin d "mc") "prefiltered_func_data_mcf.par") = true →
      e.isfile (opJoin (opJoin d "reg") "example_func2highres.mat") = true →
      e.isfile (opJoin (opJoin d "reg") "highres2standard_warp.nii.gz") = false →
      (aroma_workflow e).outcome =
        .error "Missing reg/highres2standard_warp.nii.gz in Feat directory.") ∧
    (∀ (e : Env) (f : String), e.inFeat = none → e.inFile0 = some f →
      e.isfile f = false →
      (aroma_workflow e).outcome = .error "The specified input file does not exist.") ∧
    (∀ (e : Env) (f : String), e.inFeat = none →
      okOpt e.inFile0 e.isfile = true → e.mc0 = some f → e.isfile f = false →
      (aroma_workflow e).outcome = .error "The specified mc file does does not exist.") ∧
    (∀ (e : Env) (f : String), e.inFeat = none →
      okOpt e.inFile0 e.isfile = true → okOpt e.mc0 e.isfile = true →
      e.affmat0 = some f → e.isfile f = false →
      (aroma_workflow e).outcome = .error "The specified affmat file does not exist.") ∧
    (∀ (e : Env) (f : String), e.inFeat = none →
      okOpt e.inFile0 e.isfile = true → okOpt e.mc0 e.isfile = true →
      okOpt e.affmat0 e.isfile = true →
      e.warp0 = some f → e.isfile f = false →
      (aroma_workflow e).outcome = .error "The specified warp file does not exist.") ∧
    (∀ (e : Env) (r : Resolved) (f : String), resolveFeat e = .ok r →
      e.mask = some f → e.isfile f = false →
      (aroma_workflow e).outcome = .error "The specified mask does not exist.") ∧
    (∀ (e : Env) (r : Resolved), checkFiles e = .ok r → dirAction e ≠ .stop →
      computeTR e r = .ok 0 →
      (aroma_workflow e).outcome = .error trZeroMsg) ∧
    (∀ e : Env, e.inFeat = none →
      okOpt e.inFile0 e.isfile = true → okOpt e.mc0 e.isfile = true →
      okOpt e.affmat0 e.isfile = true → okOpt e.warp0 e.isfile = true →
      okOpt e.mask e.isfile = true →
      checkFiles e = .ok { inFile := e.inFile0, mc := e.mc0, affmat := e.affmat0,
                           warp := e.warp0, melDir := e.melDir0 }) := by
  refine ⟨no_denoising_after_error, ?_, ?_, ?_, ?_, ?_, ?_, ?_, ?_, ?_, ?_, ?_, ?_⟩
  · intro e d hfeat hdir
    have hres : resolveFeat e = .error "The specified FEAT directory does not exist." := by
      simp [resolveFeat, hfeat, hdir]
    have hcf : checkFiles e = resolveFeat e := by
      rw [checkFiles, hres]
    rw [workflow_eq_err (hcf.trans hres)]
  · intro e d hfeat hdir h1
    have hres : resolveFeat e =
        .error "Missing filtered_func_data.nii.gz in Feat directory." := by
      simp [resolveFeat, hfeat, hdir, h1]
    have hcf : checkFiles e = resolveFeat e := by
      rw [checkFiles, hres]
    rw [workflow_eq_err (hcf.trans hres)]
  · intro e d hfeat hdir h1 h2
    have hres : resolveFeat e =
        .error "Missing mc/prefiltered_func_data_mcf.mat in Feat directory." := by
      simp [resolveFeat, hfeat, hdir, h1, h2]
    have hcf : checkFiles e = resolveFeat e := by
      rw [checkFiles, hres]
    rw [workflow_eq_err (hcf.trans hres)]
  · intro e d hfeat hdir h1 h2 h3
    have hres : resolveFeat e =
        .error "Missing reg/example_func2highres.mat in Feat directory." := by
      simp [resolveFeat, hfeat, hdir, h1, h2, h3]
    have hcf : checkFiles e = resolveFeat e := by
      rw [checkFiles, hres]
    rw [workflow_eq_err (hcf.trans hres)]
  · intro e d hfeat hdir h1 h2 h3 h4
    have hres : resolveFeat e =
        .error "Missing reg/highres2standard_warp.nii.gz in Feat directory." := by
      simp [resolveFeat, hfeat, hdir, h1, h2, h3, h4]
    have hcf : checkFiles e = resolveFeat e := by
      rw [checkFiles, hres]
    rw [workflow_eq_err (hcf.trans hres)]
  · intro e f hfeat hfile hisf
    have hres : resolveFeat e = .error "The specified input file does not exist." := by
      simp [resolveFeat, hfeat, hfile, hisf, checkSpecified]
    have hcf : checkFiles e = resolveFeat e := by
      rw [checkFiles, hres]
    rw [workflow_eq_err (hcf.trans hres)]
  · intro e f hfeat hok hmc hisf
    have hres : resolveFeat e = .error "The specified mc file does does not exist." := by
      simp only [resolveFeat, hfeat]
      rw [checkSpecified_ok _ _ _ _ hok]
      simp [checkSpecified, hmc, hisf]
    have hcf : checkFiles e = resolveFeat e := by
      rw [checkFiles, hres]
    rw [workflow_eq_err (hcf.trans hres)]
  · intro e f hfeat hok1 hok2 haff hisf
    have hres : resolveFeat e = .error "The specified affmat file does not exist." := by
      simp only [resolveFeat, hfeat]
      rw [checkSpecified_ok _ _ _ _ hok1, checkSpecified_ok _ _ _ _ hok2]
      simp [checkSpecified, haff, hisf]
    have hcf : checkFiles e = resolveFeat e := by
      rw [checkFiles, hres]
    rw [workflow_eq_err (hcf.trans hres)]
  · intro e f hfeat hok1 hok2 hok3 hwarp hisf
    have hres : resolveFeat e = .error "The specified warp file does not exist." := by
      simp only [resolveFeat, hfeat]
      rw [checkSpecified_ok _ _ _ _ hok1, checkSpecified_ok _ _ _ _ hok2,
        checkSpecified_ok _ _ _ _ hok3]
      simp [checkSpecified, hwarp, hisf]
    have hcf : checkFiles e = resolveFeat e := by
      rw [checkFiles, hres]
    rw [workflow_eq_err (hcf.trans hres)]
  · intro e r f hres hm hisf
    have hcf : checkFiles e = .error "The specified mask does not exist." := by
      simp [checkFiles, hres, checkSpecified, hm, hisf]
    rw [workflow_eq_err hcf]
  · intro e r h1 h2 h3
    cases hda : dirAction e with
    | stop => exact absurd hda h2
    | recreate => rw [workflow_eq_recreate h1 hda, mainRun_eq_trzero _ _ h3]
    | create => rw [workflow_eq_create h1 hda, mainRun_eq_trzero _ _ h3]
  · intro e hfeat hok1 hok2 hok3 hok4 hokm
    have hres : resolveFeat e =
        .ok { inFile := e.inFile0, mc := e.mc0, affmat := e.affmat0,
              warp := e.warp0, melDir := e.melDir0 } := by
      simp only [resolveFeat, hfeat]
      rw [checkSpecified_ok _ _ _ _ hok1, checkSpecified_ok _ _ _ _ hok2,
        checkSpecified_ok _ _ _ _ hok3, checkSpecified_ok _ _ _ _ hok4]
    simp only [checkFiles, hres]
    rw [checkSpecified_ok _ _ _ _ hokm]

set_option maxRecDepth 8192 in
/-- C2, witness: every clause applied at a concrete run: each fatal
precondition raises its own message, a zero header TR raises the TR
message and executes no denoising, and a run with unspecified input and mc
paths passes the input checks. -/
theorem C2_witness :
    Stage.denoisingStep ∉ (aroma_workflow envC2w).stages ∧
    (aroma_workflow envC2featDir).outcome =
      .error "The specified FEAT directory does not exist." ∧
    (aroma_workflow envC2feat1).outcome =
      .error "Missing filtered_func_data.nii.gz in Feat directory." ∧
    (aroma_workflow envC2feat2).outcome =
      .error "Missing mc/prefiltered_func_data_mcf.mat in Feat directory." ∧
    (aroma_workflow envC2feat3).outcome =
      .error "Missing reg/example_func2highres.mat in Feat directory." ∧
    (aroma_workflow envC2feat4).outcome =
      .error "Missing reg/highres2standard_warp.nii.gz in Feat directory." ∧
    (aroma_workflow envC2w2).outcome =
      .error "The specified input file does not exist." ∧
    (aroma_workflow envC2mc).outcome =
      .error "The specified mc file does does not exist." ∧
    (aroma_workflow envC2aff).outcome =
      .error "The specified affmat file does not exist." ∧
    (aroma_workflow envC2warp).outcome =
      .error "The specified warp file does not exist." ∧
    (aroma_workflow envC2mask).outcome =
      .error "The specified mask does not exist." ∧
    (aroma_workflow envC2w).outcome = .error trZeroMsg ∧
    checkFiles envC2cx = .ok { inFile := none, mc := none, affmat := none,
                               warp := none, melDir := none } := by
  refine ⟨?_, ?_, ?_, ?_, ?_, ?_, ?_, ?_, ?_, ?_, ?_, ?_, ?_⟩
  · exact C2_fatal_preconditions_stop_run.1 envC2w trZeroMsg (by decide)
  · exact C2_fatal_preconditions_stop_run.2.1 envC2featDir "feat" rfl rfl
  · exact C2_fatal_preconditions_stop_run.2.2.1 envC2feat1 "feat" rfl rfl rfl
  · exact C2_fatal_preconditions_stop_run.2.2.2.1 envC2feat2 "feat" rfl rfl rfl rfl
  · exact C2_fatal_preconditions_stop_run.2.2.2.2.1 envC2feat3 "feat" rfl rfl rfl rfl rfl
  · exact C2_fatal_preconditions_stop_run.2.2.2.2.2.1 envC2feat4 "feat"
      rfl rfl rfl rfl rfl rfl
  · exact C2_fatal_preconditions_stop_run.2.2.2.2.2.2.1 envC2w2 "nope.nii" rfl rfl
      (by decide)
  · exact C2_fatal_preconditions_stop_run.2.2.2.2.2.2.2.1 envC2mc "nope.par" rfl rfl rfl
      (by decide)
  · exact C2_fatal_preconditions_stop_run.2.2.2.2.2.2.2.2.1 envC2aff "nope.mat"
      rfl rfl rfl rfl (by decide)
  · exact C2_fatal_preconditions_stop_run.2.2.2.2.2.2.2.2.2.1 envC2warp "nope.nii"
      rfl rfl rfl rfl rfl (by decide)
  · exact C2_fatal_preconditions_stop_run.2.2.2.2.2.2.2.2.2.2.1 envC2mask
      { inFile := some "in.nii", mc := some "mc.par" } "nope.nii" rfl rfl (by decide)
  · exact C2_fatal_preconditions_stop_run.2.2.2.2.2.2.2.2.2.2.2.1 envC2w
      { inFile := some "in.nii", mc := some "mc.par" } rfl (by decide) rfl
  · exact C2_fatal_preconditions_stop_run.2.2.2.2.2.2.2.2.2.2.2.2 envC2cx
      rfl rfl rfl rfl rfl rfl

/-! ### Least-squares facts -/

theorem SS_nonneg {m : Type} [Fintype m] (y : m → ℚ) : 0 ≤ SS y := by
  unfold SS Matrix.dotProduct
  exact Finset.sum_nonneg fun i _ => mul_self_nonneg (y i)

theorem qInv_eq_inv {p : Type} [Fintype p] [DecidableEq p] (A : Matrix p p ℚ) :
    qInv A = A⁻¹ := by
  rw [qInv, Matrix.inv_def, Ring.inverse_eq_inv]

theorem lstsq_normal {m p : Type} [Fintype m] [Fintype p] [DecidableEq p]
    (X : Matrix m p ℚ) (y : m → ℚ) (h : IsUnit (Xᵀ * X).det) :
    (Xᵀ * X) *ᵥ lstsqBeta X y = Xᵀ *ᵥ y := by
  rw [lstsqBeta, qInv_eq_inv, Matrix.mulVec_mulVec, Matrix.mul_nonsing_inv _ h,
    Matrix.one_mulVec]

theorem dot_fit {m p : Type} [Fintype m] [Fintype p] [DecidableEq p]
    (X : Matrix m p ℚ) (y : m → ℚ) (b : p → ℚ)
    (hb : (Xᵀ * X) *ᵥ b = Xᵀ *ᵥ y) :
    y ⬝ᵥ (X *ᵥ b) = (X *ᵥ b) ⬝ᵥ (X *ᵥ b) := by
  have h1 : y ⬝ᵥ (X *ᵥ b) = (Xᵀ *ᵥ y) ⬝ᵥ b := by
    rw [Matrix.dotProduct_mulVec, ← Matrix.mulVec_transpose]
  have h2 : (Xᵀ *ᵥ y) ⬝ᵥ b = ((Xᵀ * X) *ᵥ b) ⬝ᵥ b := by rw [hb]
  have h3 : ((Xᵀ * X) *ᵥ b) ⬝ᵥ b = (X *ᵥ b) ⬝ᵥ (X *ᵥ b) := by
    rw [← Matrix.mulVec_mulVec, Matrix.dotProduct_comm, Matrix.dotProduct_mulVec,
      Matrix.vecMul_transpose]
  rw [h1, h2, h3]

theorem SS_residual {m p : Type} [Fintype m] [Fintype p] [DecidableEq p]
    (X : Matrix m p ℚ) (y : m → ℚ) (b : p → ℚ)
    (hb : (Xᵀ * X) *ᵥ b = Xᵀ *ᵥ y) :
    SS (y - X *ᵥ b) = SS y - SS (X *ᵥ b) := by
  have hyx := dot_fit X y b hb
  have hxy : (X *ᵥ b) ⬝ᵥ y = y ⬝ᵥ (X *ᵥ b) := Matrix.dotProduct_comm _ _
  unfold SS
  rw [Matrix.sub_dotProduct, Matrix.dotProduct_sub, Matrix.dotProduct_sub, hxy, hyx]
  ring

/-- The coefficient of determination of the least-squares fit always lies
in the unit interval; a singular Gram matrix falls back to zero
coefficients and hence reports 0. -/
theorem alignR2_bounds {m p : Type} [Fintype m] [Fintype p] [DecidableEq p]
    (X : Matrix m p ℚ) (y : m → ℚ) :
    0 ≤ alignR2 X y ∧ alignR2 X y ≤ 1 := by
  unfold alignR2
  by_cases h : SS y = 0
  · simp [h]
  · simp only [h, if_false]
    have hypos : 0 < SS y := lt_of_le_of_ne (SS_nonneg y) (Ne.symm h)
    have hres_nonneg : 0 ≤ SS (y - X *ᵥ lstsqBeta X y) := SS_nonneg _
    have hres_le : SS (y - X *ᵥ lstsqBeta X y) ≤ SS y := by
      by_cases hu : IsUnit (Xᵀ * X).det
      · rw [SS_residual X y _ (lstsq_normal X y hu)]
        have := SS_nonneg (X *ᵥ lstsqBeta X y)
        linarith
      · have hdet : (Xᵀ * X).det = 0 := by
          rwa [isUnit_iff_ne_zero, not_ne_iff] at hu
        have hbeta : lstsqBeta X y = 0 := by
          rw [lstsqBeta, qInv, hdet]
          simp
        rw [hbeta]
        simp
    constructor
    · have hd : SS (y - X *ᵥ lstsqBeta X y) / SS y ≤ 1 := by
        rw [div_le_one hypos]; exact hres_le
      linarith
    · have hd : 0 ≤ SS (y - X *ᵥ lstsqBeta X y) / SS y :=
        div_nonneg hres_nonneg hypos.le
      linarith

/-- The maximum correlation magnitude lies in the unit interval. -/
theorem maxRPcorr_bounds {T : ℕ} (y : Fin T → ℚ) (rp : Fin T → Fin 6 → ℚ) :
    0 ≤ maxRPcorr y rp ∧ maxRPcorr y rp ≤ 1 := by
  unfold maxRPcorr
  constructor
  · exact le_max_iff.mpr (Or.inr (Real.sqrt_nonneg _))
  · have hb1 := (alignR2_bounds (designMat rp) (demean y)).2
    have hb2 := (alignR2_bounds (dropLastM (designMat rp)) (dropFirst (demean y))).2
    have hb3 := (alignR2_bounds (dropFirstM (designMat rp)) (dropLast (demean y))).2
    refine max_le (max_le ?_ ?_) ?_ <;> rw [Real.sqrt_le_one]
    · exact_mod_cast hb1
    · exact_mod_cast hb2
    · exact_mod_cast hb3

/-! ### Spatial and frequency feature facts -/

theorem maskedMass_nonneg {ι : Type} [Fintype ι] (m : ι → ℚ) (msk : ι → Bool) :
    0 ≤ maskedMass m msk :=
  Finset.sum_nonneg fun _ _ => abs_nonneg _

theorem maskedMass_mono {ι : Type} [Fintype ι] (m : ι → ℚ) (a b : ι → Bool)
    (h : ∀ v, a v = true → b v = true) : maskedMass m a ≤ maskedMass m b := by
  refine Finset.sum_le_sum fun v _ => ?_
  cases hav : a v with
  | false =>
    have hz : |m v * indQ false| = 0 := by simp [indQ]
    rw [hz]
    exact abs_nonneg _
  | true => rw [h v hav]

/-- Any masked fraction over a containing mask lies in the unit interval;
a zero denominator reports 0 by policy. -/
theorem edgeFract_bounds {ι : Type} [Fintype ι] (m : ι → ℚ) (edge brain : ι → Bool)
    (h : ∀ v, edge v = true → brain v = true) :
    0 ≤ edgeFract m edge brain ∧ edgeFract m edge brain ≤ 1 := by
  unfold edgeFract
  by_cases hb : maskedMass m brain = 0
  · simp [hb]
  · simp only [hb, if_false]
    have hpos : 0 < maskedMass m brain :=
      lt_of_le_of_ne (maskedMass_nonneg m brain) (Ne.symm hb)
    constructor
    · exact div_nonneg (maskedMass_nonneg m edge) hpos.le
    · rw [div_le_one hpos]; exact maskedMass_mono m edge brain h

theorem HFC_bounds {n : ℕ} (c : Fin n → ℚ) (TR cutoff : ℚ) :
    0 ≤ HFC c TR cutoff ∧ HFC c TR cutoff ≤ 1 := by
  unfold HFC
  by_cases h : (∑ i, c i ^ 2) = 0
  · simp [h]
  · simp only [h, if_false]
    have hpos : 0 < ∑ i, c i ^ 2 :=
      lt_of_le_of_ne (Finset.sum_nonneg fun i _ => sq_nonneg _) (Ne.symm h)
    have hsub : (∑ i ∈ Finset.univ.filter (fun i => cutoff < binFreq TR n i), c i ^ 2)
        ≤ ∑ i, c i ^ 2 :=
      Finset.sum_le_sum_of_subset_of_nonneg (Finset.filter_subset _ _)
        fun i _ _ => sq_nonneg _
    constructor
    · exact div_nonneg (Finset.sum_nonneg fun i _ => sq_nonneg _) hpos.le
    · rw [div_le_one hpos]; exact hsub

/-! ### Claim C6 -/

/-- C6: each of the four extracted feature values lies in the closed unit
interval, for every component; the edge and CSF reference masks are
sub-masks of the whole-brain mask. -/
theorem C6_feature_ranges {ι : Type} [Fintype ι] (m : ι → ℚ) (edge csf brain : ι → Bool)
    (hE : ∀ v, edge v = true → brain v = true)
    (hC : ∀ v, csf v = true → brain v = true)
    {T n : ℕ} (y : Fin T → ℚ) (rp : Fin T → Fin 6 → ℚ)
    (c : Fin n → ℚ) (TR cutoff : ℚ) :
    (0 ≤ edgeFract m edge brain ∧ edgeFract m edge brain ≤ 1) ∧
    (0 ≤ csfFract m csf brain ∧ csfFract m csf brain ≤ 1) ∧
    (0 ≤ maxRPcorr y rp ∧ maxRPcorr y rp ≤ 1) ∧
    (0 ≤ HFC c TR cutoff ∧ HFC c TR cutoff ≤ 1) :=
  ⟨edgeFract_bounds m edge brain hE, edgeFract_bounds m csf brain hC,
    maxRPcorr_bounds y rp, HFC_bounds c TR cutoff⟩

/-- C6, witness: the bounds at a concrete one-voxel map, masks, time
course, motion parameters and spectrum. -/
theorem C6_witness :
    (0 ≤ edgeFract (fun _ : Fin 1 => (1 : ℚ)) (fun _ => true) (fun _ => true) ∧
      edgeFract (fun _ : Fin 1 => (1 : ℚ)) (fun _ => true) (fun _ => true) ≤ 1) ∧
    (0 ≤ csfFract (fun _ : Fin 1 => (1 : ℚ)) (fun _ => false) (fun _ => true) ∧
      csfFract (fun _ : Fin 1 => (1 : ℚ)) (fun _ => false) (fun _ => true) ≤ 1) ∧
    (0 ≤ maxRPcorr (fun _ : Fin 2 => (0 : ℚ)) (fun _ _ => 0) ∧
      maxRPcorr (fun _ : Fin 2 => (0 : ℚ)) (fun _ _ => 0) ≤ 1) ∧
    (0 ≤ HFC (fun _ : Fin 1 => (1 : ℚ)) 2 (3 / 20) ∧
      HFC (fun _ : Fin 1 => (1 : ℚ)) 2 (3 / 20) ≤ 1) :=
  @C6_feature_ranges (Fin 1) _ (fun _ => 1) (fun _ => true) (fun _ => false) (fun _ => true)
    (fun _ _ => rfl) (fun _ _ => rfl) 2 1 (fun _ => 0) (fun _ _ => 0) (fun _ => 1) 2 (3 / 20)

/-! ### Claim C7 -/

/-- C7: with an empty set of noise-labeled components, both the aggressive
and the non-aggressive denoising strategies return the input time course
unchanged (exactly, hence within any floating-point tolerance). -/
theorem C7_empty_noise_identity {T K : ℕ} (mix : Matrix (Fin T) (Fin K) ℚ)
    (y : Fin T → ℚ) :
    aggrClean mix ∅ y = y ∧ nonaggrClean mix ∅ y = y := by
  constructor
  · funext t
    haveI : IsEmpty {i // i ∈ (∅ : Finset (Fin K))} :=
      ⟨fun i => Finset.not_mem_empty i.1 i.2⟩
    simp [aggrClean, Matrix.mulVec, Matrix.dotProduct]
  · funext t
    simp [nonaggrClean]

/-! ### Claim C5 -/

/-- C5: the classifier is a pure, order-independent function: the
classification table of a permuted component list is the permuted table,
each component receives the label computed from its own features alone,
and the whole workflow is deterministic: equal inputs give equal runs. -/
theorem C5_classifier_pure_deterministic :
    (∀ (cfg : ClassifierConfig) (xs ys : List (ℕ × FeatureSet)), xs.Perm ys →
      (classificationTable cfg xs).Perm (classificationTable cfg ys)) ∧
    (∀ (cfg : ClassifierConfig) (xs : List (ℕ × FeatureSet)) (i : ℕ) (f : FeatureSet),
      (i, f) ∈ xs →
      (i, discriminantScore cfg f, classify cfg f) ∈ classificationTable cfg xs) ∧
    (∀ e1 e2 : Env, e1 = e2 → aroma_workflow e1 = aroma_workflow e2) := by
  refine ⟨?_, ?_, ?_⟩
  · intro cfg xs ys h
    exact h.map _
  · intro cfg xs i f h
    exact List.mem_map.mpr ⟨(i, f), h, rfl⟩
  · intro e1 e2 h
    rw [h]

/-- C5, witness: a concrete two-component list, its swap, and a concrete
repeated run. -/
theorem C5_witness :
    (classificationTable cfg0 [(0, featA), (1, featB)]).Perm
      (classificationTable cfg0 [(1, featB), (0, featA)]) ∧
    (0, discriminantScore cfg0 featA, classify cfg0 featA) ∈
      classificationTable cfg0 [(0, featA), (1, featB)] ∧
    aroma_workflow envBase = aroma_workflow envBase := by
  refine ⟨?_, ?_, ?_⟩
  · exact C5_classifier_pure_deterministic.1 cfg0 _ _
      (List.Perm.swap (1, featB) (0, featA) [])
  · exact C5_classifier_pure_deterministic.2.1 cfg0 _ 0 featA
      (List.mem_cons_self _ _)
  · exact C5_classifier_pure_deterministic.2.2 envBase envBase rfl

/-! ### Claim C3 -/

/-- C3: with the none ("no") mode the denoising stage is skipped entirely,
so the series is left untouched and no cleaned volume is produced; every
completed run produces the number of cleaned volumes matching its
effective mode (zero for none, one for aggressive or non-aggressive, two
for both), and the spec-modelled denoiser produces exactly those lists. -/
theorem C3_none_mode_and_volume_counts :
    (∀ e : Env, effDen e = "no" → Stage.denoisingStep ∉ (aroma_workflow e).stages) ∧
    (∀ (e : Env) (tr : ℚ) (d : String) (c : ℕ),
      (aroma_workflow e).outcome = .finished tr d c → d = effDen e ∧ c = denCount d) ∧
    (∀ e : Env, e.denType ∈ validDenTypes → effDen e = e.denType) ∧
    (∀ (T K : ℕ) (mix : Matrix (Fin T) (Fin K) ℚ) (noise : Finset (Fin K)) (y : Fin T → ℚ),
      denoiser "no" mix noise y = [] ∧
      (denoiser "nonaggr" mix noise y).length = denCount "nonaggr" ∧
      (denoiser "aggr" mix noise y).length = denCount "aggr" ∧
      (denoiser "both" mix noise y).length = denCount "both") := by
  refine ⟨?_, ?_, ?_, ?_⟩
  · intro e hno
    rcases workflow_shape e with ⟨m, hw⟩ | hw | ⟨ds, ws, m, hds, hw⟩ | ⟨ds, ws, tr, hds, hw⟩
    · rw [hw]; simp
    · rw [hw]; simp
    · rw [hw]; rcases hds with hds | hds <;> subst hds <;> simp
    · rw [hw]; rcases hds with hds | hds <;> subst hds <;> simp [afterTR, hno]
  · intro e tr d c h
    rcases workflow_shape e with ⟨m, hw⟩ | hw | ⟨ds, ws, m, hds, hw⟩ | ⟨ds, ws, tr2, hds, hw⟩
    · rw [hw] at h; simp at h
    · rw [hw] at h; simp at h
    · rw [hw] at h; simp at h
    · rw [hw] at h
      simp only [afterTR, Outcome.finished.injEq] at h
      obtain ⟨h1, h2, h3⟩ := h
      subst h2
      refine ⟨rfl, ?_⟩
      by_cases hno : effDen e = "no"
      · rw [hno] at h3
        simp at h3
        have hd : denCount "no" = 0 := by decide
        rw [hno, hd]
        omega
      · rw [if_neg hno] at h3
        exact h3.symm
  · intro e h
    simp [effDen, h]
  · intro T K mix noise y
    refine ⟨?_, ?_, ?_, ?_⟩ <;> simp [denoiser, denCount]

/-- C3, witness: a concrete run with the none mode executes no denoising
stage and reports zero cleaned volumes, and the denoiser lists at a
concrete mixing matrix have the stated lengths. -/
theorem C3_witness :
    Stage.denoisingStep ∉ (aroma_workflow envC3w).stages ∧
    ("no" = effDen envC3w ∧ 0 = denCount "no") ∧
    effDen envC3w = envC3w.denType ∧
    denoiser "no" (fun _ _ => (1 : ℚ) : Matrix (Fin 2) (Fin 1) ℚ) ∅ (fun _ => 1) = [] := by
  refine ⟨?_, ?_, ?_, ?_⟩
  · exact C3_none_mode_and_volume_counts.1 envC3w (by decide)
  · exact C3_none_mode_and_volume_counts.2.1 envC3w 2 "no" 0 (by decide)
  · exact C3_none_mode_and_volume_counts.2.2.1 envC3w (by decide)
  · exact (C3_none_mode_and_volume_counts.2.2.2 2 1 (fun _ _ => 1) ∅ (fun _ => 1)).1

end Aroma
